import Mathlib

/-!
Verification of the michelin web scraper (src/web_scraper.py) against its
natural-language specification.  The Python helpers are shallowly embedded as
Lean functions: strings become `String`/`List Char`, Python dictionaries become
association lists, fallible code (statements that may raise) returns
`Except String` carrying the name of the raised exception, and the HTTP
transport is an environment parameter mapping a URL to an optional fetched
document (`none` models a transport-level failure, which the source catches).
-/

set_option maxRecDepth 8000

/-- Whitespace characters matched by the Python regex class backslash-s and by
the default str.strip, restricted to the ASCII range that appears in practice. -/
def isPySpace (c : Char) : Bool :=
  c = ' ' || c = '\t' || c = '\n' || c = '\r' || c = '\x0b' || c = '\x0c'

/-- Model of re.sub with pattern backslash-s-plus and replacement a single
space: each maximal run of whitespace becomes one space.  The boolean flag
records whether the previous character belonged to a whitespace run. -/
def collapseWsAux : Bool → List Char → List Char
  | _, [] => []
  | prevWs, c :: rest =>
    if isPySpace c then
      if prevWs then collapseWsAux true rest
      else ' ' :: collapseWsAux true rest
    else c :: collapseWsAux false rest

/-- Model of Python str.strip with no argument: drop whitespace from both ends. -/
def stripChars (l : List Char) : List Char :=
  ((l.dropWhile isPySpace).reverse.dropWhile isPySpace).reverse

/-- Model of Python str.replace applied to a single space and the empty string:
remove every space character. -/
def removeSpaces (l : List Char) : List Char :=
  l.filter (fun c => c ≠ ' ')

/-- Model of Python str.split with a one-character separator: keeps empty
segments, and the empty string yields one empty segment. -/
def splitOnChar (sep : Char) : List Char → List (List Char)
  | [] => [[]]
  | c :: rest =>
    let s := splitOnChar sep rest
    if c = sep then [] :: s
    else
      match s with
      | [] => [[c]]
      | a :: more => (c :: a) :: more

/-- Model of the Python substring test (pat in s): pat occurs contiguously in s. -/
def hasSub (pat : List Char) : List Char → Bool
  | [] => pat.isEmpty
  | c :: rest => pat.isPrefixOf (c :: rest) || hasSub pat rest

/-- A marker src matches the bib gourmand pattern (src/web_scraper.py line 20). -/
def isBib (src : String) : Bool :=
  hasSub "bib-gourmand".data src.data

/-- A marker src matches the one-star pattern (src/web_scraper.py line 22). -/
def isStar (src : String) : Bool :=
  hasSub "1star".data src.data

/-- Final mapping from the accumulated star count to the rating text
(src/web_scraper.py lines 24 to 29; the text starts as "No Rating"). -/
def ratingFromCount (n : Nat) : String :=
  if n = 1 then "1 Star"
  else if n = 2 then "2 Stars"
  else if n = 3 then "3 Stars"
  else "No Rating"

/-- The for-loop of parse_rating over the award images (src/web_scraper.py
lines 18 to 23): an early return on a bib marker, otherwise count star markers. -/
def parseRatingAux : List String → Nat → String
  | [], n => ratingFromCount n
  | src :: rest, n =>
    if isBib src then "Bib Gourmand"
    else if isStar src then parseRatingAux rest (n + 1)
    else parseRatingAux rest n

/-- Embedding of parse_rating (src/web_scraper.py lines 13 to 31).  The input
is the optional rating span, represented by the list of award-image src
attributes it contains; `none` models an absent span. -/
def parse_rating : Option (List String) → String
  | none => "No Rating"
  | some imgs => parseRatingAux imgs 0

/-- Embedding of parse_price_cuisine (src/web_scraper.py lines 34 to 38): the
raw footer text is whitespace-collapsed, stripped, cleared of spaces and split
on the middle dot; accessing segments 0 and 1 of the split raises IndexError
when fewer than two segments result, modelled by `none`. -/
def parse_price_cuisine (raw : String) : Option (String × String) :=
  match splitOnChar '·' (removeSpaces (stripChars (collapseWsAux false raw.data))) with
  | a :: b :: _ => some (String.mk a, String.mk b)
  | _ => none

/-- First occurrence split on a single character: returns the parts before and
after the first occurrence of sep, or `none` when sep does not occur.  Models
the key-value partition performed by urllib parse_qsl. -/
def splitFirstChar (sep : Char) : List Char → Option (List Char × List Char)
  | [] => none
  | c :: rest =>
    if c = sep then some ([], rest)
    else (splitFirstChar sep rest).map (fun p => (c :: p.1, p.2))

/-- Model of the query component returned by urlparse: the text after the
first question mark of the fragment-free part of the URL, empty otherwise. -/
def urlQuery (url : String) : String :=
  let nofrag := url.data.takeWhile (fun c => c ≠ '#')
  match nofrag.dropWhile (fun c => c ≠ '?') with
  | [] => ""
  | _ :: rest => String.mk rest

/-- One field of a query string under urllib parse_qs with default options:
fields without an equals sign or with an empty value are dropped.  Percent
escapes and plus signs are not modelled (none occur in the embedded inputs). -/
def parseQSPair (kv : List Char) : Option (String × String) :=
  match splitFirstChar '=' kv with
  | none => none
  | some (k, v) => if v.isEmpty then none else some (String.mk k, String.mk v)

/-- Model of urllib parse_qs restricted to first values: the query string is
split on the ampersand and each field parsed by `parseQSPair`. -/
def parseQS (q : String) : List (String × String) :=
  (splitOnChar '&' q.data).filterMap parseQSPair

/-- First value bound to a key in the parsed query list, as accessed by the
subscription of the q key at index 0 in the Python source. -/
def getParam (ps : List (String × String)) (k : String) : Option String :=
  (ps.find? (fun p => p.1 == k)).map (fun p => p.2)

/-- Digit list to natural number, most significant first. -/
def natOfDigits (l : List Char) : Nat :=
  l.foldl (fun a c => a * 10 + (c.toNat - 48)) 0

/-- Unsigned part of the Python float constructor on plain decimal strings:
digits, an optional dot, and fraction digits, with at least one digit overall.
Exponents, underscores and the inf and nan forms are not modelled (none occur
in the embedded inputs). -/
def parseUnsignedFloat (s : List Char) : Option Rat :=
  let ip := s.takeWhile Char.isDigit
  match s.dropWhile Char.isDigit with
  | [] => if ip.isEmpty then none else some (mkRat (natOfDigits ip) 1)
  | '.' :: fp =>
    if fp.all Char.isDigit && !(ip.isEmpty && fp.isEmpty) then
      some (mkRat (natOfDigits ip * 10 ^ fp.length + natOfDigits fp) (10 ^ fp.length))
    else none
  | _ => none

/-- Model of the Python float constructor on decimal strings: optional
surrounding whitespace, an optional sign, then an unsigned decimal form;
`none` models the ValueError raised on anything else. -/
def parseFloat (s : String) : Option Rat :=
  match stripChars s.data with
  | '-' :: r => (parseUnsignedFloat r).map (fun q => -q)
  | '+' :: r => parseUnsignedFloat r
  | r => parseUnsignedFloat r

/-- A value stored in one of the Python dictionaries of the scraper: a string
or a number (latitude and longitude are floats, modelled as rationals). -/
inductive Val where
  | str : String → Val
  | num : Rat → Val
deriving DecidableEq, Repr

/-- Embedding of scrape_gm_iframe_url (src/web_scraper.py lines 41 to 58).
When the query has no q parameter the result is the pair of empty strings;
otherwise the value is split on the comma and both halves passed to the float
constructor.  A non-numeric first half raises ValueError at line 53, a missing
second half raises IndexError at line 54, a non-numeric second half raises
ValueError; all are modelled by `Except.error` since the source has no handler
for them. -/
def scrape_gm_iframe_url (url : String) : Except String (Val × Val) :=
  match getParam (parseQS (urlQuery url)) "q" with
  | none => .ok (.str "", .str "")
  | some v =>
    let parts := splitOnChar ',' v.data
    match parseFloat (String.mk (parts.headD [])) with
    | none => .error "ValueError"
    | some la =>
      match parts[1]? with
      | none => .error "IndexError"
      | some lonChars =>
        match parseFloat (String.mk lonChars) with
        | none => .error "ValueError"
        | some lo => .ok (.num la, .num lo)

/-- A fetched and parsed detail-page document, reduced to the values the
scraper reads: optional node texts, optional link hrefs, and the src
attributes of the iframe elements in document order. -/
structure DetailDoc where
  address : Option String
  description : Option String
  websiteHref : Option String
  telHref : Option String
  reservationHref : Option String
  iframeSrcs : List String
deriving DecidableEq, Repr

/-- Python dictionary read at key k: `none` models the KeyError raised when
the key is absent. -/
def lookup (d : List (String × Val)) (k : String) : Option Val :=
  (d.find? (fun p => p.1 == k)).map (fun p => p.2)

/-- Boolean success test on an embedded fallible computation. -/
def exceptIsOk {α : Type} : Except String α → Bool
  | .ok _ => true
  | .error _ => false

/-- The telephone extraction of src/web_scraper.py line 92: the href is split
on every colon and segment 1 taken; a href without a colon raises IndexError. -/
def telFromHref (href : String) : Except String String :=
  match (splitOnChar ':' href.data)[1]? with
  | none => .error "IndexError"
  | some seg => .ok (String.mk seg)

/-- Embedding of scrape_restaurant_page (src/web_scraper.py lines 61 to 110).
The argument is the fetch outcome: `none` is a transport failure, for which
the source returns a literal dictionary with only four keys (lines 68 to 73).
On success the fields are extracted in source order; the unguarded accesses
(telephone split at line 92, iframe index 1 at line 99, coordinate parsing)
surface as `Except.error`. -/
def scrape_restaurant_page (fetched : Option DetailDoc) :
    Except String (List (String × Val)) :=
  match fetched with
  | none =>
    .ok [("Address", .str ""), ("Description", .str ""),
         ("Coordinates", .str ""), ("Website URL", .str "")]
  | some doc =>
    let address := match doc.address with
      | some t => String.mk (stripChars t.data)
      | none => ""
    let description := match doc.description with
      | some t => String.mk (stripChars t.data)
      | none => ""
    let website := doc.websiteHref.getD ""
    let telRes : Except String String := match doc.telHref with
      | none => .ok ""
      | some h => telFromHref h
    match telRes with
    | .error e => .error e
    | .ok telephone =>
      let reservation := doc.reservationHref.getD ""
      match doc.iframeSrcs[1]? with
      | none => .error "IndexError"
      | some src =>
        match scrape_gm_iframe_url src with
        | .error e => .error e
        | .ok (la, lo) =>
          .ok [("Address", .str address), ("Description", .str description),
               ("Restaurant Website", .str website),
               ("Telephone Number", .str telephone),
               ("Reservation Link", .str reservation),
               ("Latitude", la), ("Longitude", lo)]

/-- One restaurant card on a listing page, reduced to the values the scraper
reads: the optional title text, the footer texts in document order, the
optional rating span (as its award-image src list), and the optional href of
the first anchor. -/
structure Card where
  name : Option String
  footerTexts : List String
  ratingImgs : Option (List String)
  href : Option String
deriving DecidableEq, Repr

/-- The title text of a card as computed at src/web_scraper.py line 142. -/
def cardName (card : Card) : String :=
  match card.name with
  | some t => String.mk (stripChars t.data)
  | none => ""

/-- The exclusion list of src/web_scraper.py line 145. -/
def EXCLUDED : List String :=
  ["La\x27Shukran", "Café Riggs", "Xiquet", "Rooster & Owl"]

/-- The detail URL built at src/web_scraper.py line 161: a fixed site root
concatenated with the raw href of the card anchor. -/
def michelinDetailUrl (href : String) : String :=
  "https://guide.michelin.com" ++ href

/-- The final ordered output record for one restaurant (the dictionary built
at src/web_scraper.py lines 164 to 178). -/
structure Record where
  name : String
  rating : String
  city : String
  price : String
  cuisine : String
  description : Val
  address : Val
  latitude : Val
  longitude : Val
  michelinWebsite : String
  restaurantWebsite : Val
  telephone : Val
  reservationLink : Val
deriving DecidableEq, Repr

/-- The per-card body of the loop at src/web_scraper.py lines 139 to 178.
`Except.ok none` models the continue statement for excluded names; the
unguarded accesses (footer indices 0 and 1, the price and cuisine split, the
anchor subscription for href, and the dictionary reads on the detail-page
result) surface as `Except.error`.  The detail page is fetched through denv. -/
def processCard (denv : String → Option DetailDoc) (card : Card) :
    Except String (Option Record) :=
  let name := cardName card
  if EXCLUDED.contains name then .ok none
  else
    match card.footerTexts[0]? with
    | none => .error "IndexError"
    | some f0 =>
      let city := String.mk (stripChars f0.data)
      match card.footerTexts[1]? with
      | none => .error "IndexError"
      | some f1 =>
        match parse_price_cuisine f1 with
        | none => .error "IndexError"
        | some pc =>
          let rating := parse_rating card.ratingImgs
          match card.href with
          | none => .error "TypeError"
          | some href =>
            let url := michelinDetailUrl href
            match scrape_restaurant_page (denv url) with
            | .error e => .error e
            | .ok pageData =>
              match lookup pageData "Description", lookup pageData "Address",
                    lookup pageData "Latitude", lookup pageData "Longitude",
                    lookup pageData "Restaurant Website",
                    lookup pageData "Telephone Number",
                    lookup pageData "Reservation Link" with
              | some de, some ad, some la, some lo, some rweb, some tel, some rl =>
                .ok (some { name := name, rating := rating, city := city,
                            price := pc.1, cuisine := pc.2, description := de,
                            address := ad, latitude := la, longitude := lo,
                            michelinWebsite := url, restaurantWebsite := rweb,
                            telephone := tel, reservationLink := rl })
              | _, _, _, _, _, _, _ => .error "KeyError"

/-- The card loop of scrape_results_single_page: cards in document order, a
skipped card contributes nothing, and any raised exception aborts the page. -/
def processCards (denv : String → Option DetailDoc) :
    List Card → Except String (List Record)
  | [] => .ok []
  | c :: rest =>
    match processCard denv c with
    | .error e => .error e
    | .ok none => processCards denv rest
    | .ok (some r) =>
      match processCards denv rest with
      | .error e => .error e
      | .ok rs => .ok (r :: rs)

/-- One anchor of the pagination control: its optional href and whether it
contains the right-arrow icon. -/
structure PagLink where
  href : Option String
  hasNextIcon : Bool
deriving DecidableEq, Repr

/-- A fetched and parsed listing-page document: the restaurant cards and the
pagination anchors in document order. -/
structure ListingDoc where
  cards : List Card
  pagLinks : List PagLink
deriving DecidableEq, Repr

/-- The scan at src/web_scraper.py lines 184 to 188: the first pagination
anchor containing the right-arrow icon. -/
def findNextLink : List PagLink → Option PagLink
  | [] => none
  | l :: rest => if l.hasNextIcon then some l else findNextLink rest

/-- Whether a reference is already absolute: some colon appears before any
slash, question mark or hash. -/
def isAbsCh : List Char → Bool
  | [] => false
  | c :: rest =>
    if c == ':' then true
    else if c == '/' || c == '?' || c == '#' then false
    else isAbsCh rest

/-- First occurrence split on a character sequence: the parts before and
after the first occurrence of pat, or `none` when pat does not occur. -/
def splitSeq (pat : List Char) : List Char → Option (List Char × List Char)
  | [] => none
  | c :: rest =>
    if pat.isPrefixOf (c :: rest) then some ([], (c :: rest).drop pat.length)
    else (splitSeq pat rest).map (fun p => (c :: p.1, p.2))

/-- Scheme and authority part of a URL: everything up to the first slash after
the scheme separator, or empty when there is no scheme separator. -/
def originCh (s : List Char) : List Char :=
  match splitSeq [':', '/', '/'] s with
  | none => []
  | some (pre, post) => pre ++ [':', '/', '/'] ++ post.takeWhile (fun c => c ≠ '/')

/-- String wrapper for `originCh`. -/
def origin (s : String) : String := String.mk (originCh s.data)

/-- The base URL up to and including its last slash, for resolving
path-relative references. -/
def dirCh (s : List Char) : List Char :=
  (s.reverse.dropWhile (fun c => c ≠ '/')).reverse

/-- Model of urllib urljoin, also the standard relative-link resolution named
by the spec: an absolute reference replaces the base, a root-relative
reference is resolved against the origin of the base, an empty reference
keeps the base, and a path-relative reference is resolved against the base
directory.  Restricted to these four forms, the ones exercised here. -/
def resolveUrl (base ref : String) : String :=
  if isAbsCh ref.data then ref
  else if ref.data.head? = some '/' then String.mk (originCh base.data ++ ref.data)
  else if ref.data.isEmpty then base
  else String.mk (dirCh base.data ++ ref.data)

/-- The next-page computation of src/web_scraper.py lines 180 to 203: the
first right-arrow anchor is taken; a missing href, an empty href, a hash
href, or a resolved URL identical to the current one all yield no next page. -/
def nextPageUrl (url : String) (doc : ListingDoc) : Option String :=
  match findNextLink doc.pagLinks with
  | none => none
  | some link =>
    match link.href with
    | none => none
    | some rel =>
      if rel = "" then none
      else if rel = "#" then none
      else
        let fu := resolveUrl url rel
        if fu = url then none else some fu

/-- Embedding of scrape_results_single_page (src/web_scraper.py lines 113 to
203): a transport failure yields no records and no next page; otherwise the
cards are processed (exceptions propagate) and the next-page URL computed. -/
def scrape_results_single_page (env : String → Option ListingDoc)
    (denv : String → Option DetailDoc) (url : String) :
    Except String (List Record × Option String) :=
  match env url with
  | none => .ok ([], none)
  | some doc =>
    match processCards denv doc.cards with
    | .error e => .error e
    | .ok recs => .ok (recs, nextPageUrl url doc)

/-- Exit branch taken by the while loop of scrape_michelin_data: the break at
line 233 (first page empty), the break at line 237 (later page empty), or the
loop condition turning false because no next URL was found. -/
inductive Reason where
  | initialPageEmpty
  | naturalEnd
  | noNextLink
deriving DecidableEq, Repr

/-- Result of the crawl loop: a normal exit with the accumulated records and
the exit branch, or fuel exhaustion at some URL (the Python loop has no fuel;
the fuel only truncates the unbounded while loop for the embedding). -/
inductive CrawlOut where
  | done : List Record → Reason → CrawlOut
  | fuelOut : String → CrawlOut
deriving DecidableEq, Repr

/-- Embedding of the while loop of scrape_michelin_data (src/web_scraper.py
lines 225 to 248), with explicit page count and accumulator. -/
def scrapeLoop (env : String → Option ListingDoc)
    (denv : String → Option DetailDoc) :
    Nat → String → Nat → List Record → Except String CrawlOut
  | 0, url, _, _ => .ok (.fuelOut url)
  | fuel + 1, url, pageCount, acc =>
    match scrape_results_single_page env denv url with
    | .error e => .error e
    | .ok (recs, nextUrl) =>
      if recs.isEmpty && pageCount == 1 then .ok (.done acc .initialPageEmpty)
      else if recs.isEmpty then .ok (.done acc .naturalEnd)
      else
        match nextUrl with
        | none => .ok (.done (acc ++ recs) .noNextLink)
        | some u => scrapeLoop env denv fuel u (pageCount + 1) (acc ++ recs)

/-- Embedding of scrape_michelin_data (src/web_scraper.py lines 207 to 252):
the loop starts at the start URL with page count 1 and no records. -/
def scrape_michelin_data (env : String → Option ListingDoc)
    (denv : String → Option DetailDoc) (fuel : Nat) (startUrl : String) :
    Except String CrawlOut :=
  scrapeLoop env denv fuel startUrl 1 []

/-- A well-formed card used as concrete input in several witnesses. -/
def cardGood : Card :=
  { name := some "Alpha", footerTexts := ["Kyoto", "€€·Sushi"],
    ratingImgs := some [], href := some "/us/en/kyoto/alpha" }

/-- A card whose footer text has no middle-dot separator. -/
def cardBadFooter : Card :=
  { name := some "Beta", footerTexts := ["Kyoto", "no-separator-text"],
    ratingImgs := some [], href := some "/us/en/kyoto/beta" }

/-- A detail document with no iframe elements at all. -/
def docNoIframe : DetailDoc :=
  { address := none, description := none, websiteHref := none,
    telHref := none, reservationHref := none, iframeSrcs := [] }

/-- A detail document whose map iframe carries a q parameter with non-numeric
halves. -/
def docBadCoords : DetailDoc :=
  { address := none, description := none, websiteHref := none,
    telHref := none, reservationHref := none,
    iframeSrcs := ["about:blank", "https://www.google.com/maps?q=abc,def"] }

/-- A fully well-formed detail document used in the crawl-loop witness. -/
def detailAlpha : DetailDoc :=
  { address := some " 1 Street ", description := some "Nice.",
    websiteHref := some "https://alpha.example",
    telHref := some "tel:+81 75 000 0000", reservationHref := none,
    iframeSrcs := ["about:blank", "https://www.google.com/maps?q=35.5,135.25"] }

/-- The listing URL of the last page in the crawl-loop witness. -/
def urlLast : String :=
  "https://guide.michelin.com/us/en/kyoto-region/restaurants/page/9"

/-- A listing document whose pagination next-arrow anchor points at a hash
href, the self-referential last-page shape. -/
def docLast : ListingDoc :=
  { cards := [cardGood],
    pagLinks := [{ href := some "/page/8", hasNextIcon := false },
                 { href := some "#", hasNextIcon := true }] }

/-- Listing-page environment serving `docLast` at `urlLast` only. -/
def envLast : String → Option ListingDoc :=
  fun u => if u = urlLast then some docLast else none

/-- Detail-page environment serving `detailAlpha` everywhere. -/
def denvLast : String → Option DetailDoc :=
  fun _ => some detailAlpha

/-- The record produced for `cardGood` under `denvLast`. -/
def recAlpha : Record :=
  { name := "Alpha", rating := "No Rating", city := "Kyoto",
    price := "€€", cuisine := "Sushi",
    description := Val.str "Nice.", address := Val.str "1 Street",
    latitude := Val.num (mkRat 71 2), longitude := Val.num (mkRat 541 4),
    michelinWebsite := "https://guide.michelin.com/us/en/kyoto/alpha",
    restaurantWebsite := Val.str "https://alpha.example",
    telephone := Val.str "+81 75 000 0000", reservationLink := Val.str "" }

/-- When some marker in the list matches the bib pattern, the loop short
circuits to the bib result whatever the accumulated star count is. -/
theorem parseRatingAux_bib (l : List String) (n : Nat)
    (h : ∃ m ∈ l, isBib m = true) : parseRatingAux l n = "Bib Gourmand" := by
  induction l generalizing n with
  | nil => simp at h
  | cons a t ih =>
    rcases h with ⟨m, hm, hbib⟩
    rcases List.mem_cons.mp hm with rfl | hmt
    · simp [parseRatingAux, hbib]
    · by_cases ha : isBib a = true
      · simp [parseRatingAux, ha]
      · have ha' : isBib a = false := by
          cases hx : isBib a
          · rfl
          · exact absurd hx ha
        by_cases hs : isStar a = true
        · simp [parseRatingAux, ha', hs]
          exact ih (n + 1) ⟨m, hmt, hbib⟩
        · have hs' : isStar a = false := by
            cases hx : isStar a
            · rfl
            · exact absurd hx hs
          simp [parseRatingAux, ha', hs']
          exact ih n ⟨m, hmt, hbib⟩

/-- When no marker matches the bib pattern, the loop returns the rating text
for the initial count plus the number of star markers. -/
theorem parseRatingAux_no_bib (l : List String) (n : Nat)
    (h : ∀ m ∈ l, isBib m = false) :
    parseRatingAux l n = ratingFromCount (n + l.countP isStar) := by
  induction l generalizing n with
  | nil => simp [parseRatingAux]
  | cons a t ih =>
    have ha : isBib a = false := h a (List.mem_cons_self a t)
    have ht : ∀ m ∈ t, isBib m = false := fun m hm => h m (List.mem_cons_of_mem a hm)
    cases hs : isStar a with
    | true =>
      have : parseRatingAux (a :: t) n = parseRatingAux t (n + 1) := by
        simp [parseRatingAux, ha, hs]
      rw [this, ih (n + 1) ht, List.countP_cons]
      congr 1
      simp [hs]
      omega
    | false =>
      have : parseRatingAux (a :: t) n = parseRatingAux t n := by
        simp [parseRatingAux, ha, hs]
      rw [this, ih n ht, List.countP_cons]
      congr 1
      simp [hs]

/-- C6: any award-marker collection containing at least one marker matching the
bib gourmand pattern is classified as Bib Gourmand, regardless of how many star
markers are also present and regardless of marker order. -/
theorem c6_bib_short_circuit (l : List String)
    (h : ∃ m ∈ l, isBib m = true) :
    parse_rating (some l) = "Bib Gourmand" := by
  simpa [parse_rating] using parseRatingAux_bib l 0 h

/-- Witness for C6 at a concrete marker list with a star marker before the bib
marker. -/
theorem c6_witness :
    parse_rating (some ["ic/1star.svg", "ic/bib-gourmand.svg"]) = "Bib Gourmand" :=
  c6_bib_short_circuit _ ⟨"ic/bib-gourmand.svg", by decide, by decide⟩

/-- C7: with no bib marker present, star counts 0, 1, 2, 3 map to No Rating,
1 Star, 2 Stars, 3 Stars respectively; in particular the empty collection maps
to No Rating. -/
theorem c7_star_counts (l : List String)
    (h : ∀ m ∈ l, isBib m = false) :
    (l.countP isStar = 0 → parse_rating (some l) = "No Rating")
    ∧ (l.countP isStar = 1 → parse_rating (some l) = "1 Star")
    ∧ (l.countP isStar = 2 → parse_rating (some l) = "2 Stars")
    ∧ (l.countP isStar = 3 → parse_rating (some l) = "3 Stars")
    ∧ parse_rating (some []) = "No Rating" := by
  have hbase : parse_rating (some l) = ratingFromCount (l.countP isStar) := by
    simpa [parse_rating] using parseRatingAux_no_bib l 0 h
  refine ⟨?_, ?_, ?_, ?_, by decide⟩ <;> intro hc <;>
    simp [hbase, hc, ratingFromCount]

/-- Witness for C7 at a concrete two-star marker list. -/
theorem c7_witness :
    parse_rating (some ["a-1star.svg", "b-1star.svg"]) = "2 Stars" :=
  (c7_star_counts ["a-1star.svg", "b-1star.svg"] (by decide)).2.2.1 (by decide)

/-- C10: with no bib marker, a star count outside one to three (zero, or four
and above) yields No Rating rather than a star tier or an error. -/
theorem c10_outside_counts (l : List String)
    (h : ∀ m ∈ l, isBib m = false)
    (hc : l.countP isStar = 0 ∨ 4 ≤ l.countP isStar) :
    parse_rating (some l) = "No Rating" := by
  have hbase : parse_rating (some l) = ratingFromCount (l.countP isStar) := by
    simpa [parse_rating] using parseRatingAux_no_bib l 0 h
  rcases hc with hc | hc
  · simp [hbase, hc, ratingFromCount]
  · have h1 : l.countP isStar ≠ 1 := by omega
    have h2 : l.countP isStar ≠ 2 := by omega
    have h3 : l.countP isStar ≠ 3 := by omega
    simp [hbase, ratingFromCount, h1, h2, h3]

/-- Witness for C10 at a concrete four-star marker list. -/
theorem c10_witness :
    parse_rating (some ["1star", "1star", "1star", "1star"]) = "No Rating" :=
  c10_outside_counts _ (by decide) (Or.inr (by decide))

/-- C9: parse_price_cuisine collapses whitespace runs to single spaces, strips,
removes all spaces, then splits on the middle dot; on the footer text with
stray spacing it yields the price and cuisine pair.  The first three conjuncts
exhibit the three normalization stages in the claimed order on that input. -/
theorem c9_split_price_cuisine :
    String.mk (collapseWsAux false "  €€  ·  Japanese  ".data) = " €€ · Japanese "
    ∧ String.mk (stripChars (collapseWsAux false "  €€  ·  Japanese  ".data)) = "€€ · Japanese"
    ∧ String.mk (removeSpaces (stripChars (collapseWsAux false "  €€  ·  Japanese  ".data))) = "€€·Japanese"
    ∧ parse_price_cuisine "  €€  ·  Japanese  " = some ("€€", "Japanese") := by
  refine ⟨?_, ?_, ?_, ?_⟩ <;> decide

/-- C1: contrary to the contract, the detail-page processing fails outward on
a transport-level fetch failure.  The except branch of the source returns a
dictionary with only the four keys Address, Description, Coordinates and
Website URL; the caller then reads the key Latitude, which is absent, so card
processing raises KeyError and no record is emitted.  The three conjuncts
evaluate the fallback dictionary, the failing dictionary read, and the card
processing at a transport-failing detail fetch. -/
theorem c1_detail_fetch_failure_keyerror :
    scrape_restaurant_page none
      = Except.ok [("Address", Val.str ""), ("Description", Val.str ""),
                   ("Coordinates", Val.str ""), ("Website URL", Val.str "")]
    ∧ lookup [("Address", Val.str ""), ("Description", Val.str ""),
              ("Coordinates", Val.str ""), ("Website URL", Val.str "")] "Latitude" = none
    ∧ processCard (fun _ => none) cardGood = Except.error "KeyError" :=
  ⟨rfl, rfl, rfl⟩

/-- C2 counterexample: on a detail document with no iframe elements the
processing does not return a DetailInfo at all, refuting the claim that
coordinates are recorded absent and the rest of the page returned. -/
theorem c2_counterexample :
    exceptIsOk (scrape_restaurant_page (some docNoIframe)) = false := rfl

/-- C2 amended: on a detail document with fewer than two iframe elements
(and no telephone link, so the earlier unguarded telephone split cannot fail
first) the index-1 iframe access raises IndexError, which propagates and
aborts the page processing; no DetailInfo is returned. -/
theorem c2_amended_iframe_indexerror (doc : DetailDoc)
    (htel : doc.telHref = none) (hlen : doc.iframeSrcs.length < 2) :
    scrape_restaurant_page (some doc) = Except.error "IndexError" := by
  have h1 : doc.iframeSrcs[1]? = none := List.getElem?_eq_none (by omega)
  simp [scrape_restaurant_page, htel, h1]

/-- Witness for the amended C2 at the concrete iframe-free document. -/
theorem c2_amended_witness :
    scrape_restaurant_page (some docNoIframe) = Except.error "IndexError" :=
  c2_amended_iframe_indexerror docNoIframe rfl (by decide)

/-- C3 counterexample: on a detail document whose map iframe URL carries the
q value abc,def the ValueError from the float constructor propagates out of
the detail-page processing, refuting the claim that the parse error is
non-fatal with coordinates recorded absent. -/
theorem c3_counterexample :
    scrape_restaurant_page (some docBadCoords) = Except.error "ValueError" := rfl

/-- C3 amended: a well-formed q parameter 35.0116,135.7681 parses to the pair
of those decimal values; a URL whose query has no q parameter yields the
empty-string pair without error; but a q value with non-numeric halves raises
ValueError, which the source does not catch, so it propagates and aborts the
detail-page processing instead of recording coordinates absent. -/
theorem c3_amended_coordinates :
    scrape_gm_iframe_url "https://www.google.com/maps?q=35.0116,135.7681"
      = Except.ok (Val.num (mkRat 350116 10000), Val.num (mkRat 1357681 10000))
    ∧ (∀ url : String, getParam (parseQS (urlQuery url)) "q" = none →
        scrape_gm_iframe_url url = Except.ok (Val.str "", Val.str ""))
    ∧ scrape_gm_iframe_url "https://www.google.com/maps?q=abc,def" = Except.error "ValueError"
    ∧ scrape_restaurant_page (some docBadCoords) = Except.error "ValueError" := by
  refine ⟨rfl, ?_, rfl, rfl⟩
  intro url h
  simp [scrape_gm_iframe_url, h]

/-- Witness for the amended C3 at a concrete URL with no q parameter. -/
theorem c3_amended_witness :
    scrape_gm_iframe_url "https://maps.example/embed" = Except.ok (Val.str "", Val.str "") :=
  c3_amended_coordinates.2.1 "https://maps.example/embed" rfl

/-- C4 counterexample: a page containing a card whose footer does not split
into two segments aborts with IndexError; no record is emitted for the card,
refuting the claim that price and cuisine become absent and the record is
still emitted. -/
theorem c4_counterexample :
    processCards (fun _ => none) [cardBadFooter] = Except.error "IndexError" := rfl

/-- C4 amended: when the footer text splits into fewer than two segments the
segment-1 access inside the price and cuisine split raises IndexError; the
caller has no handler, so the card is not emitted and the page processing
aborts with the error. -/
theorem c4_amended_footer_aborts (denv : String → Option DetailDoc)
    (card : Card) (f1 : String)
    (hname : EXCLUDED.contains (cardName card) = false)
    (h1 : card.footerTexts[1]? = some f1)
    (hpc : parse_price_cuisine f1 = none) :
    processCard denv card = Except.error "IndexError" := by
  obtain ⟨a, t, hft⟩ : ∃ a t, card.footerTexts = a :: t := by
    cases hft : card.footerTexts with
    | nil => rw [hft] at h1; simp at h1
    | cons a t => exact ⟨a, t, rfl⟩
  have h0 : card.footerTexts[0]? = some a := by rw [hft]; simp
  have hname' : cardName card ∉ EXCLUDED := by simpa using hname
  simp [processCard, hname', h0, h1, hpc]

/-- Witness for the amended C4 at the concrete malformed-footer card. -/
theorem c4_amended_witness :
    processCard (fun _ => none) cardBadFooter = Except.error "IndexError" :=
  c4_amended_footer_aborts (fun _ => none) cardBadFooter "no-separator-text"
    (by decide) rfl rfl

/-- C5: when the first right-arrow pagination anchor has a href that is
empty, the hash, or resolves to the current page URL, the listing processor
reports no next page, and the crawl loop, after a page that produced at least
one record, terminates at once through the no-next-link exit with the records
accumulated so far, instead of fetching the same URL again. -/
theorem c5_no_next_terminates (url : String) (doc : ListingDoc)
    (link : PagLink) (rel : String)
    (hfind : findNextLink doc.pagLinks = some link)
    (hhref : link.href = some rel)
    (hcase : rel = "" ∨ rel = "#" ∨ resolveUrl url rel = url) :
    nextPageUrl url doc = none
    ∧ ∀ (env : String → Option ListingDoc) (denv : String → Option DetailDoc)
        (fuel n : Nat) (acc recs : List Record),
        env url = some doc →
        processCards denv doc.cards = Except.ok recs →
        recs ≠ [] →
        scrapeLoop env denv (fuel + 1) url n acc
          = Except.ok (CrawlOut.done (acc ++ recs) Reason.noNextLink) := by
  have hnext : nextPageUrl url doc = none := by
    rcases hcase with h | h | h
    · simp [nextPageUrl, hfind, hhref, h]
    · simp [nextPageUrl, hfind, hhref, h]
    · by_cases h1 : rel = ""
      · simp [nextPageUrl, hfind, hhref, h1]
      · by_cases h2 : rel = "#"
        · simp [nextPageUrl, hfind, hhref, h2]
        · simp [nextPageUrl, hfind, hhref, h1, h2, h]
  refine ⟨hnext, ?_⟩
  intro env denv fuel n acc recs henv hproc hne
  have hempty : recs.isEmpty = false := by
    cases recs with
    | nil => exact absurd rfl hne
    | cons a t => rfl
  simp [scrapeLoop, scrape_results_single_page, henv, hproc, hnext, hempty]

/-- Witness for C5: a one-page crawl whose pagination arrow is a hash link
terminates through the no-next-link exit with the single record of the page. -/
theorem c5_witness :
    scrapeLoop envLast denvLast 1 urlLast 1 []
      = Except.ok (CrawlOut.done [recAlpha] Reason.noNextLink) :=
  (c5_no_next_terminates urlLast docLast { href := some "#", hasNextIcon := true } "#"
      rfl rfl (Or.inr (Or.inl rfl))).2
    envLast denvLast 0 1 [] [recAlpha] rfl rfl (by decide)

/-- C8 counterexample: for an already-absolute card href the stored detail
URL is the fixed site root concatenated with the href, which differs from the
href resolved against the listing page URL by standard resolution. -/
theorem c8_counterexample :
    michelinDetailUrl "https://example.com/x"
      ≠ resolveUrl "https://guide.michelin.com/us/en/kyoto-region/restaurants"
          "https://example.com/x" := by decide

/-- C8 amended: the stored detail URL is the fixed site root concatenated
with the raw href; for root-relative hrefs (starting with a slash) and a
listing page on the guide.michelin.com origin this coincides with standard
relative resolution against the page URL, but already-absolute hrefs are not
resolved (the root is prepended to them). -/
theorem c8_amended_root_relative (page href : String) (t : List Char)
    (hh : href.data = '/' :: t)
    (ho : origin page = "https://guide.michelin.com") :
    michelinDetailUrl href = resolveUrl page href := by
  have ho' : originCh page.data = "https://guide.michelin.com".data :=
    congrArg String.data ho
  obtain ⟨d⟩ := href
  have hd : d = '/' :: t := hh
  subst hd
  have h1 : resolveUrl page (String.mk ('/' :: t))
      = String.mk (originCh page.data ++ ('/' :: t)) := rfl
  have h2 : michelinDetailUrl (String.mk ('/' :: t))
      = String.mk ("https://guide.michelin.com".data ++ ('/' :: t)) := rfl
  rw [h1, h2, ho']

/-- Witness for the amended C8 at a concrete root-relative href and listing
URL on the site origin. -/
theorem c8_amended_witness :
    michelinDetailUrl "/us/en/osaka-region/restaurants"
      = resolveUrl "https://guide.michelin.com/us/en/kyoto-region/restaurants"
          "/us/en/osaka-region/restaurants" :=
  c8_amended_root_relative "https://guide.michelin.com/us/en/kyoto-region/restaurants"
    "/us/en/osaka-region/restaurants" "us/en/osaka-region/restaurants".data rfl rfl
